import Mathlib

/-!
Verification of the log-management / health endpoints of `src/main.py`
(a FastAPI demo service).

The handlers are embedded shallowly:

* The local filesystem is a state value `FS`: a map from folder paths to
  directory listings (lists of `FileEntry`), plus a map from file paths to
  the lines of text files (used by the summarize endpoint).  `os.remove`
  may raise; the exception a file would raise is recorded in the entry
  itself (`removeError`), acting as an oracle for the nondeterministic
  environment.
* Times (`time.time()`, `os.path.getmtime`) are modelled as integer
  seconds and sizes as naturals; percentages as rationals.  Python
  `round(x, 2)` is `round2` below; the exact tie-breaking of binary
  floats is abstracted (no claim depends on it, nor on sub-second
  timestamps).
* A handler that touches the filesystem is a function `FS → ... → FS × Response`;
  a Python `return {"error": ...}` is the `.error` branch of the response
  type.  Raising an uncaught exception has no counterpart in the response
  types, so "returns an error object rather than throwing" is expressed by
  the handler being a total function into the response type whose value is
  the `.error` branch.
-/

/-- One entry of a directory listing: its name, whether `os.path.isfile`
holds (subdirectories have `isfile = false`), its mtime and size, and the
exception message `os.remove` would raise on it (`none` = removal succeeds). -/
structure FileEntry where
  name : String
  isfile : Bool
  mtime : ℤ
  size : Nat
  removeError : Option String
deriving Repr, DecidableEq

/-- The filesystem state: folder path → directory listing (in `os.listdir`
order), and text-file path → lines (for the summarize endpoint). -/
structure FS where
  dirs : String → Option (List FileEntry)
  textFiles : String → Option (List String)

/-- The `os.path.exists(folder)` check of the preview/delete handlers. -/
def FS.folderExists (fs : FS) (folder : String) : Bool :=
  (fs.dirs folder).isSome

/-- The `os.path.exists(file_path)` check of the summarize handler. -/
def FS.fileExists (fs : FS) (p : String) : Bool :=
  (fs.textFiles p).isSome

/-- `os.listdir(folder)`: the names in the directory, in listing order. -/
def FS.listdir (fs : FS) (folder : String) : List String :=
  ((fs.dirs folder).getD []).map (·.name)

/-- Look up the directory entry behind `os.path.join(folder, f)`. -/
def FS.findEntry (fs : FS) (folder f : String) : Option FileEntry :=
  ((fs.dirs folder).getD []).find? (fun e => e.name == f)

/-- `os.path.isfile(os.path.join(folder, f))`. -/
def FS.isfile (fs : FS) (folder f : String) : Bool :=
  match fs.findEntry folder f with
  | some e => e.isfile
  | none => false

/-- `os.path.getmtime(os.path.join(folder, f))` (0 if absent; the handlers
only call it after the `isfile` check). -/
def FS.getmtime (fs : FS) (folder f : String) : ℤ :=
  match fs.findEntry folder f with
  | some e => e.mtime
  | none => 0

/-- `os.path.getsize(os.path.join(folder, f))` (0 if absent). -/
def FS.getsize (fs : FS) (folder f : String) : Nat :=
  match fs.findEntry folder f with
  | some e => e.size
  | none => 0

/-- Remove the entry named `f` from `folder` (the state change of a
successful `os.remove`). -/
def FS.removeEntry (fs : FS) (folder f : String) : FS :=
  { fs with
    dirs := fun d =>
      if d = folder then (fs.dirs d).map (fun es => es.eraseP (fun e => e.name == f))
      else fs.dirs d }

/-- `os.remove(os.path.join(folder, f))`: raises the entry's recorded
exception, or removes the entry from the directory. -/
def FS.remove (fs : FS) (folder f : String) : Except String FS :=
  match fs.findEntry folder f with
  | none => .error ("No such file or directory: " ++ f)
  | some e =>
    match e.removeError with
    | some msg => .error msg
    | none => .ok (fs.removeEntry folder f)

/-- Python `round(x, 2)`: round to two decimal places. -/
def round2 (q : ℚ) : ℚ := (round (q * 100) : ℤ) / 100

/-- Python `str.lower()`, as a character-wise map. -/
def pyLower (s : String) : String := String.mk (s.data.map Char.toLower)

deriving instance DecidableEq for Except

/-! ## GET /logs/preview-delete (`preview_logs`, src/main.py lines 77-101) -/

/-- The successful response body of `preview_logs`: the `files_to_delete`
list of `{"file": f, "size_bytes": size}` pairs, `total_space_to_free_mb`,
and the pre-built `delete_url`. -/
structure PreviewResult where
  files_to_delete : List (String × Nat)
  total_space_to_free_mb : ℚ
  delete_url : String
deriving Repr, DecidableEq

/-- The body of the `for f in os.listdir(folder)` loop of `preview_logs`:
accumulate `(files_to_delete, total_space)` across one listed name. -/
def previewStep (fs : FS) (folder : String) (days : Int) (now : ℤ)
    (acc : List (String × Nat) × Nat) (f : String) : List (String × Nat) × Nat :=
  if fs.isfile folder f then
    if days * 86400 < now - fs.getmtime folder f then
      (acc.1 ++ [(f, fs.getsize folder f)], acc.2 + fs.getsize folder f)
    else acc
  else acc

/-- `preview_logs(folder, days)` at current time `now`: the handler of
GET /logs/preview-delete.  Read-only, so the state component is returned
unchanged. -/
def preview_logs (fs : FS) (folder : String) (days : Int) (now : ℤ) :
    FS × Except String PreviewResult :=
  if fs.folderExists folder = false then
    (fs, .error ("Folder not found: " ++ folder))
  else
    let r := (fs.listdir folder).foldl (previewStep fs folder days now) ([], 0)
    (fs, .ok
      { files_to_delete := r.1
        total_space_to_free_mb := round2 ((r.2 : ℚ) / (1024 * 1024))
        delete_url :=
          "/logs/delete-confirmed?folder=" ++ folder ++ "&days=" ++ toString days
            ++ "&confirm=yes" })

/-! ## DELETE /logs/delete-confirmed (`delete_logs`, src/main.py lines 103-141) -/

/-- One element of the `deleted_files` list: a bare filename on success,
or the `{"file": f, "error": str(e)}` object recorded on a per-file failure. -/
inductive DeletedEntry where
  | ok (file : String) : DeletedEntry
  | failed (file : String) (err : String) : DeletedEntry
deriving Repr, DecidableEq

/-- The filename an entry of `deleted_files` refers to. -/
def DeletedEntry.fileName : DeletedEntry → String
  | .ok f => f
  | .failed f _ => f

/-- The successful response body of `delete_logs`. -/
structure DeleteResult where
  deleted_files : List DeletedEntry
  space_freed_mb : ℚ
  folder : String
  days : Int
deriving Repr, DecidableEq

/-- The three response shapes of `delete_logs`: the no-op message (confirm
missing), the missing-folder error object, and the deletion report. -/
inductive DeleteResponse where
  | noop (message : String) (folder : String) (days : Int) : DeleteResponse
  | error (msg : String) : DeleteResponse
  | ok (r : DeleteResult) : DeleteResponse
deriving Repr, DecidableEq

/-- The body of the `for f in os.listdir(folder)` loop of `delete_logs`:
it threads the filesystem (removals mutate it), the `deleted_files`
accumulator and the running `total_space`.  The `try/except` around
`os.remove` is the match on `FS.remove`: on failure the `{file, error}`
record is appended and the loop continues. -/
def deleteStep (folder : String) (days : Int) (now : ℤ)
    (st : FS × List DeletedEntry × Nat) (f : String) : FS × List DeletedEntry × Nat :=
  if st.1.isfile folder f then
    if days * 86400 < now - st.1.getmtime folder f then
      match st.1.remove folder f with
      | .ok fs2 => (fs2, st.2.1 ++ [.ok f], st.2.2 + st.1.getsize folder f)
      | .error e => (st.1, st.2.1 ++ [.failed f e], st.2.2)
    else st
  else st

/-- `delete_logs(folder, days, confirm)` at current time `now`: the handler
of DELETE /logs/delete-confirmed.  Mirrors the source: return the no-op
message when `confirm.lower() != "yes"`, then the missing-folder error,
then the deletion loop over the `os.listdir` snapshot. -/
def delete_logs (fs : FS) (folder : String) (days : Int) (confirm : String) (now : ℤ) :
    FS × DeleteResponse :=
  if pyLower confirm ≠ "yes" then
    (fs, .noop "Deletion not performed. Use ?confirm=yes to proceed." folder days)
  else if fs.folderExists folder = false then
    (fs, .error ("Folder not found: " ++ folder))
  else
    let r := (fs.listdir folder).foldl (deleteStep folder days now) (fs, [], 0)
    (r.1, .ok
      { deleted_files := r.2.1
        space_freed_mb := round2 ((r.2.2 : ℚ) / (1024 * 1024))
        folder := folder
        days := days })

/-! ## POST /logs/summarize (`summarize_log`, src/main.py lines 143-162) -/

/-- The summary counters returned by `summarize_log`. -/
structure LogSummary where
  errors : Nat
  warnings : Nat
  info : Nat
  total_lines : Nat
deriving Repr, DecidableEq

/-- Character-list version of `String.startsWith`. -/
def charsStartWith : List Char → List Char → Bool
  | [], _ => true
  | _ :: _, [] => false
  | a :: p, b :: l => a == b && charsStartWith p l

/-- Substring containment on character lists. -/
def charsContain (needle : List Char) : List Char → Bool
  | [] => needle.isEmpty
  | b :: t => charsStartWith needle (b :: t) || charsContain needle t

/-- `re.search(pat, line, re.IGNORECASE)` for a literal keyword `pat`:
case-insensitive substring containment. -/
def searchIgnoreCase (pat line : String) : Bool :=
  charsContain (pat.data.map Char.toLower) (line.data.map Char.toLower)

/-- The body of the `for line in f` loop of `summarize_log`: bump
`total_lines`, then classify the line into the first bucket whose keyword
matches (error, then warn, then info). -/
def summarizeLine (s : LogSummary) (line : String) : LogSummary :=
  let s1 : LogSummary := { s with total_lines := s.total_lines + 1 }
  if searchIgnoreCase "error" line then { s1 with errors := s1.errors + 1 }
  else if searchIgnoreCase "warn" line then { s1 with warnings := s1.warnings + 1 }
  else if searchIgnoreCase "info" line then { s1 with info := s1.info + 1 }
  else s1

/-- `summarize_log(file_path)`: the handler of POST /logs/summarize.
The file's content is a list of lines in `fs.textFiles`. -/
def summarize_log (fs : FS) (file_path : String) : Except String LogSummary :=
  if fs.fileExists file_path = false then
    .error ("File not found: " ++ file_path)
  else
    .ok (((fs.textFiles file_path).getD []).foldl summarizeLine ⟨0, 0, 0, 0⟩)

/-! ## GET /health: the two handlers (src/main.py lines 62-74 and 245-255) -/

/-- A health response: the status string and the three readings it was
computed from. -/
structure HealthResponse where
  status : String
  cpu : ℚ
  memory : ℚ
  disk : ℚ
deriving Repr, DecidableEq

/-- `health_check` (line 62, registered on the first FastAPI instance):
status is "OK" if `cpu < 80 and memory < 80`, else "WARNING". -/
def health_check (cpu memory disk : ℚ) : HealthResponse :=
  { status := if cpu < 80 ∧ memory < 80 then "OK" else "WARNING"
    cpu := cpu, memory := memory, disk := disk }

/-- `health` (line 245, registered on the second FastAPI instance): the
status is the constant "OK", whatever the readings. -/
def health (cpu memory disk : ℚ) : HealthResponse :=
  { status := "OK", cpu := cpu, memory := memory, disk := disk }

/-! ## The module-level `app` object (src/main.py lines 52 and 243) -/

/-- A registered route: HTTP method and path. -/
structure Route where
  method : String
  path : String
deriving Repr, DecidableEq

/-- The routes registered on the FastAPI instance created at line 52, in
declaration order. -/
def firstAppRoutes : List Route :=
  [⟨"GET", "/users"⟩, ⟨"GET", "/health"⟩, ⟨"GET", "/logs/preview-delete"⟩,
   ⟨"DELETE", "/logs/delete-confirmed"⟩, ⟨"POST", "/logs/summarize"⟩,
   ⟨"GET", "/events"⟩, ⟨"GET", "/.well-known/ai-plugin.json"⟩]

/-- The routes registered on the fresh FastAPI instance that line 243
rebinds `app` to: only the second `/health` (line 245) and `/` (line 257). -/
def secondAppRoutes : List Route :=
  [⟨"GET", "/health"⟩, ⟨"GET", "/"⟩]

/-- The value of the module-level name `app` after the module body runs:
line 243 executes after every decorator on the first instance, so the
exported object is the second instance. -/
def exportedAppRoutes : List Route := secondAppRoutes

/-! ## Declarative descriptions of the selection logic -/

/-- The selection predicate shared by preview and delete: a listed name is
selected when it is a regular file whose age `now - mtime` strictly
exceeds `days * 86400` seconds. -/
def agedFile (fs : FS) (folder : String) (days : Int) (now : ℤ) (f : String) : Bool :=
  fs.isfile folder f && decide (days * 86400 < now - fs.getmtime folder f)

/-- The names selected from `folder`, in listing order. -/
def selectedLogFiles (fs : FS) (folder : String) (days : Int) (now : ℤ) : List String :=
  (fs.listdir folder).filter (agedFile fs folder days now)

/-- The `deleted_files` entry a selected file produces: its bare name when
`os.remove` succeeds, the `{file, error}` record when it raises. -/
def removeOutcome (fs : FS) (folder f : String) : DeletedEntry :=
  match fs.remove folder f with
  | .ok _ => .ok f
  | .error e => .failed f e

/-- Whether `os.remove` succeeds on `f` (in the original state `fs`). -/
def removeSucceeds (fs : FS) (folder f : String) : Bool :=
  match fs.remove folder f with
  | .ok _ => true
  | .error _ => false

/-- A line counted in the `errors` bucket: the case-insensitive keyword
`error` occurs in it. -/
def lineIsError (line : String) : Bool := searchIgnoreCase "error" line

/-- A line counted in the `warnings` bucket: `warn` occurs but the earlier
`error` test did not fire. -/
def lineIsWarning (line : String) : Bool :=
  !searchIgnoreCase "error" line && searchIgnoreCase "warn" line

/-- A line counted in the `info` bucket: `info` occurs but neither earlier
test fired. -/
def lineIsInfo (line : String) : Bool :=
  !searchIgnoreCase "error" line && !searchIgnoreCase "warn" line
    && searchIgnoreCase "info" line

/-! ## Concrete instances used to exercise the theorems -/

/-- Lines of a sample log file. -/
def wLines : List String :=
  ["ERROR: boom", "warning stuff", "some info line", "plain line", "Error and warn"]

/-- A concrete filesystem: the folder `logs` holds an old removable file,
an old file whose removal raises, a subdirectory and a fresh file; one
text file exists for the summarize endpoint. -/
def fsW : FS :=
  { dirs := fun d =>
      if d = "logs" then
        some [⟨"old.log", true, 0, 1048576, none⟩,
              ⟨"locked.log", true, 500000, 2097152, some "Permission denied"⟩,
              ⟨"sub", false, 0, 0, none⟩,
              ⟨"new.log", true, 999999, 100, none⟩]
      else none
    textFiles := fun p => if p = "/var/log/app.log" then some wLines else none }

/-- `removeOutcome` always carries the name of the file it reports on. -/
lemma fileName_removeOutcome (fs : FS) (folder f : String) :
    (removeOutcome fs folder f).fileName = f := by
  unfold removeOutcome DeletedEntry.fileName
  cases fs.remove folder f <;> rfl

/-! ## The preview loop, declaratively -/

/-- Running the preview loop over a name list appends exactly the selected
names (with their sizes) and adds up their sizes. -/
lemma previewStep_foldl (fs : FS) (folder : String) (days : Int) (now : ℤ) :
    ∀ (names : List String) (acc : List (String × Nat)) (t : Nat),
      names.foldl (previewStep fs folder days now) (acc, t) =
        (acc ++ (names.filter (agedFile fs folder days now)).map
            (fun f => (f, fs.getsize folder f)),
         t + ((names.filter (agedFile fs folder days now)).map
            (fun f => fs.getsize folder f)).sum) := by
  intro names
  induction names with
  | nil => intro acc t; simp
  | cons f rest ih =>
    intro acc t
    rw [List.foldl_cons]
    by_cases h1 : fs.isfile folder f
    · by_cases h2 : days * 86400 < now - fs.getmtime folder f
      · have hsel : agedFile fs folder days now f = true := by
          simp [agedFile, h1, h2]
        have hstep : previewStep fs folder days now (acc, t) f =
            (acc ++ [(f, fs.getsize folder f)], t + fs.getsize folder f) := by
          unfold previewStep; rw [if_pos h1, if_pos h2]
        rw [hstep, ih]
        simp [List.filter_cons, hsel, Nat.add_assoc]
      · have hsel : agedFile fs folder days now f = false := by
          simp [agedFile, h2]
        have hstep : previewStep fs folder days now (acc, t) f = (acc, t) := by
          unfold previewStep; rw [if_pos h1, if_neg h2]
        rw [hstep, ih]
        simp [List.filter_cons, hsel]
    · have hsel : agedFile fs folder days now f = false := by
        simp [agedFile, h1]
      have hstep : previewStep fs folder days now (acc, t) f = (acc, t) := by
        unfold previewStep; rw [if_neg h1]
      rw [hstep, ih]
      simp [List.filter_cons, hsel]

/-! ## The delete loop, declaratively -/

/-- Erasing by a predicate disjoint from the search predicate does not
change the result of `find?`. -/
lemma find_eraseP_of_disjoint {α : Type} (p q : α → Bool)
    (h : ∀ a, p a = true → q a = false) :
    ∀ l : List α, (l.eraseP p).find? q = l.find? q := by
  intro l
  induction l with
  | nil => rfl
  | cons a t ih =>
    by_cases hp : p a
    · rw [List.eraseP_cons_of_pos hp, List.find?_cons_of_neg t (by simp [h a hp])]
    · rw [List.eraseP_cons_of_neg hp]
      cases hqa : q a
      · rw [List.find?_cons_of_neg _ (by simp [hqa]), List.find?_cons_of_neg _ (by simp [hqa]), ih]
      · rw [List.find?_cons_of_pos _ hqa, List.find?_cons_of_pos _ hqa]

/-- Removing one file leaves every differently-named entry of the same
folder where it was. -/
lemma findEntry_removeEntry_ne (fs : FS) (folder f g : String) (h : g ≠ f) :
    (fs.removeEntry folder f).findEntry folder g = fs.findEntry folder g := by
  unfold FS.removeEntry FS.findEntry
  simp only [if_pos rfl]
  cases hd : fs.dirs folder
  · rfl
  · simp only [Option.map_some', Option.getD_some]
    exact find_eraseP_of_disjoint _ _
      (fun e hp => by
        simp only [beq_iff_eq] at hp ⊢
        simp [hp, h.symm]) _

/-- Queries that go through `findEntry` agree on states that agree there. -/
lemma isfile_congr {cur fs : FS} {folder f : String}
    (h : cur.findEntry folder f = fs.findEntry folder f) :
    cur.isfile folder f = fs.isfile folder f := by
  unfold FS.isfile; rw [h]

lemma getmtime_congr {cur fs : FS} {folder f : String}
    (h : cur.findEntry folder f = fs.findEntry folder f) :
    cur.getmtime folder f = fs.getmtime folder f := by
  unfold FS.getmtime; rw [h]

lemma getsize_congr {cur fs : FS} {folder f : String}
    (h : cur.findEntry folder f = fs.findEntry folder f) :
    cur.getsize folder f = fs.getsize folder f := by
  unfold FS.getsize; rw [h]

/-- Running the delete loop over a duplicate-free name list produces one
`deleted_files` entry per selected name — the `{file, error}` record
exactly for the names whose removal raises — and sums the sizes of the
successfully removed ones.  The hypothesis relates the running state `cur`
to the state `fs` the `os.listdir` snapshot was taken in. -/
lemma deleteStep_foldl (fs : FS) (folder : String) (days : Int) (now : ℤ) :
    ∀ (names : List String), names.Nodup →
      ∀ (cur : FS) (dels : List DeletedEntry) (t : Nat),
        (∀ f ∈ names, cur.findEntry folder f = fs.findEntry folder f) →
        (names.foldl (deleteStep folder days now) (cur, dels, t)).2 =
          (dels ++ (names.filter (agedFile fs folder days now)).map (removeOutcome fs folder),
           t + ((names.filter (fun f =>
                  agedFile fs folder days now f && removeSucceeds fs folder f)).map
                (fun f => fs.getsize folder f)).sum) := by
  intro names
  induction names with
  | nil => intro _ cur dels t _; simp
  | cons f rest ih =>
    intro hnd cur dels t hinv
    have hnd' := List.nodup_cons.mp hnd
    have hf : cur.findEntry folder f = fs.findEntry folder f := hinv f (by simp)
    have hinv_rest : ∀ g ∈ rest, cur.findEntry folder g = fs.findEntry folder g :=
      fun g hg => hinv g (by simp [hg])
    rw [List.foldl_cons]
    by_cases h1 : fs.isfile folder f
    · by_cases h2 : days * 86400 < now - fs.getmtime folder f
      · have hsel : agedFile fs folder days now f = true := by simp [agedFile, h1, h2]
        -- the removal attempt: the running state holds the same entry as `fs`
        have hrem : cur.remove folder f =
            match fs.findEntry folder f with
            | none => Except.error ("No such file or directory: " ++ f)
            | some e =>
              match e.removeError with
              | some msg => Except.error msg
              | none => Except.ok (cur.removeEntry folder f) := by
          unfold FS.remove; rw [hf]
        cases hfe : fs.findEntry folder f with
        | none =>
          exfalso
          unfold FS.isfile at h1
          rw [hfe] at h1
          exact Bool.false_ne_true h1
        | some e =>
          cases herr : e.removeError with
          | some msg =>
            have hstep : deleteStep folder days now (cur, dels, t) f =
                (cur, dels ++ [.failed f msg], t) := by
              unfold deleteStep
              rw [if_pos (by rw [isfile_congr hf]; exact h1),
                if_pos (by rw [getmtime_congr hf]; exact h2)]
              rw [hrem, hfe]
              simp [herr]
            have hout : removeOutcome fs folder f = .failed f msg := by
              unfold removeOutcome FS.remove; rw [hfe]; simp [herr]
            have hsucc : removeSucceeds fs folder f = false := by
              unfold removeSucceeds FS.remove; rw [hfe]; simp [herr]
            rw [hstep, ih hnd'.2 cur (dels ++ [DeletedEntry.failed f msg]) t hinv_rest]
            simp [List.filter_cons, hsel, hsucc, hout]
          | none =>
            have hstep : deleteStep folder days now (cur, dels, t) f =
                (cur.removeEntry folder f, dels ++ [.ok f], t + fs.getsize folder f) := by
              unfold deleteStep
              rw [if_pos (by rw [isfile_congr hf]; exact h1),
                if_pos (by rw [getmtime_congr hf]; exact h2)]
              rw [hrem, hfe]
              simp [herr, getsize_congr hf]
            have hout : removeOutcome fs folder f = .ok f := by
              unfold removeOutcome FS.remove; rw [hfe]; simp [herr]
            have hsucc : removeSucceeds fs folder f = true := by
              unfold removeSucceeds FS.remove; rw [hfe]; simp [herr]
            have hinv2 : ∀ g ∈ rest,
                (cur.removeEntry folder f).findEntry folder g = fs.findEntry folder g := by
              intro g hg
              have hgf : g ≠ f := fun hEq => hnd'.1 (hEq ▸ hg)
              rw [findEntry_removeEntry_ne cur folder f g hgf]
              exact hinv_rest g hg
            rw [hstep, ih hnd'.2 (cur.removeEntry folder f) (dels ++ [DeletedEntry.ok f])
              (t + fs.getsize folder f) hinv2]
            simp [List.filter_cons, hsel, hsucc, hout, Nat.add_assoc]
      · have hsel : agedFile fs folder days now f = false := by simp [agedFile, h2]
        have hstep : deleteStep folder days now (cur, dels, t) f = (cur, dels, t) := by
          unfold deleteStep
          rw [if_pos (by rw [isfile_congr hf]; exact h1),
            if_neg (by rw [getmtime_congr hf]; exact h2)]
        rw [hstep, ih hnd'.2 cur dels t hinv_rest]
        simp [List.filter_cons, hsel]
    · have hsel : agedFile fs folder days now f = false := by simp [agedFile, h1]
      have hstep : deleteStep folder days now (cur, dels, t) f = (cur, dels, t) := by
        unfold deleteStep
        rw [if_neg (by rw [isfile_congr hf]; exact h1)]
      rw [hstep, ih hnd'.2 cur dels t hinv_rest]
      simp [List.filter_cons, hsel]

/-- Closed form of a successful preview run. -/
lemma preview_logs_run (fs : FS) (folder : String) (days : Int) (now : ℤ)
    (hex : fs.folderExists folder = true) :
    (preview_logs fs folder days now).2 = Except.ok
      { files_to_delete := (selectedLogFiles fs folder days now).map
          (fun f => (f, fs.getsize folder f))
        total_space_to_free_mb := round2
          ((((selectedLogFiles fs folder days now).map
              (fun f => fs.getsize folder f)).sum : ℚ) / (1024 * 1024))
        delete_url := "/logs/delete-confirmed?folder=" ++ folder ++ "&days="
          ++ toString days ++ "&confirm=yes" } := by
  unfold preview_logs selectedLogFiles
  rw [if_neg (by simp [hex])]
  simp only [previewStep_foldl fs folder days now (fs.listdir folder) [] 0,
    List.nil_append, Nat.zero_add]

/-- Closed form of a successful (confirmed) delete run. -/
lemma delete_logs_run (fs : FS) (folder : String) (days : Int) (confirm : String) (now : ℤ)
    (hc : pyLower confirm = "yes") (hex : fs.folderExists folder = true)
    (hnd : (fs.listdir folder).Nodup) :
    (delete_logs fs folder days confirm now).2 = DeleteResponse.ok
      { deleted_files := (selectedLogFiles fs folder days now).map (removeOutcome fs folder)
        space_freed_mb := round2
          (((((fs.listdir folder).filter (fun f =>
                agedFile fs folder days now f && removeSucceeds fs folder f)).map
              (fun f => fs.getsize folder f)).sum : ℚ) / (1024 * 1024))
        folder := folder
        days := days } := by
  unfold delete_logs selectedLogFiles
  rw [if_neg (by simp [hc]), if_neg (by simp [hex])]
  simp only [deleteStep_foldl fs folder days now (fs.listdir folder) hnd fs [] 0
      (fun _ _ => rfl),
    List.nil_append, Nat.zero_add]

/-! ## The summarize loop, declaratively -/

/-- Running the summarize loop counts the three (mutually exclusive)
line classes and the number of lines. -/
lemma summarizeLine_foldl :
    ∀ (lines : List String) (s : LogSummary),
      lines.foldl summarizeLine s =
        { errors := s.errors + lines.countP lineIsError
          warnings := s.warnings + lines.countP lineIsWarning
          info := s.info + lines.countP lineIsInfo
          total_lines := s.total_lines + lines.length } := by
  intro lines
  induction lines with
  | nil => intro s; simp
  | cons l rest ih =>
    intro s
    rw [List.foldl_cons, ih]
    unfold summarizeLine lineIsError lineIsWarning lineIsInfo
    by_cases h1 : searchIgnoreCase "error" l <;>
      by_cases h2 : searchIgnoreCase "warn" l <;>
        by_cases h3 : searchIgnoreCase "info" l <;>
          simp [h1, h2, h3, List.countP_cons] <;> omega

/-- Each line lands in at most one bucket, so the three counters are
bounded by the line count. -/
lemma countP_buckets_le_length (lines : List String) :
    lines.countP lineIsError + lines.countP lineIsWarning + lines.countP lineIsInfo
      ≤ lines.length := by
  induction lines with
  | nil => simp
  | cons l rest ih =>
    simp only [List.countP_cons, List.length_cons]
    have hone : (if lineIsError l then 1 else 0) + (if lineIsWarning l then 1 else 0)
        + (if lineIsInfo l then 1 else 0) ≤ 1 := by
      unfold lineIsError lineIsWarning lineIsInfo
      by_cases h1 : searchIgnoreCase "error" l <;>
        by_cases h2 : searchIgnoreCase "warn" l <;>
          by_cases h3 : searchIgnoreCase "info" l <;> simp [h1, h2, h3]
    omega

/-- Filtering by a conjunction of predicates is filtering twice. -/
lemma filter_and_filter {α : Type} (p q : α → Bool) (l : List α) :
    l.filter (fun a => p a && q a) = (l.filter p).filter q := by
  induction l with
  | nil => rfl
  | cons a t ih =>
    by_cases hp : p a <;> by_cases hq : q a <;> simp [List.filter_cons, hp, hq, ih]

/-! ## The claims -/

/-- C9: GET /logs/preview-delete is read-only: for every folder and days
input it never deletes, creates, or modifies any file; the filesystem
state after the handler runs equals the state before. -/
theorem c9_preview_logs_readonly (fs : FS) (folder : String) (days : Int) (now : ℤ) :
    (preview_logs fs folder days now).1 = fs := by
  unfold preview_logs
  split <;> rfl

/-- C5: the module rebinds `app` to a fresh FastAPI instance after all
route definitions, so the exported application serves only GET / and
GET /health, and that /health handler returns status "OK" for every cpu,
memory, and disk reading. -/
theorem c5_exported_app_two_routes_health_ok :
    exportedAppRoutes = [⟨"GET", "/health"⟩, ⟨"GET", "/"⟩] ∧
    firstAppRoutes ≠ exportedAppRoutes ∧
    (∀ r ∈ exportedAppRoutes, r.method = "GET" ∧ (r.path = "/health" ∨ r.path = "/")) ∧
    ∀ cpu memory disk : ℚ, (health cpu memory disk).status = "OK" := by
  exact ⟨rfl, by decide, by decide, fun _ _ _ => rfl⟩

/-- C4 counterexample: at a cpu reading of exactly 80 (which does not
exceed 80) and memory 79, `health_check` answers "WARNING", not the "OK"
the claim requires. -/
theorem c4_health_check_80_counterexample :
    ¬ ((80 : ℚ) > 80 ∨ (79 : ℚ) > 80) ∧
    (health_check 80 79 50).status = "WARNING" ∧
    "WARNING" ≠ "OK" := by
  exact ⟨by decide, by decide, by decide⟩

/-- C4 (amended): `health_check` returns status "WARNING" whenever the cpu
or the memory percentage is at least 80 (so also at exactly 80), and
status "OK" exactly when both readings are strictly below 80. -/
theorem c4_health_check_status_iff (cpu memory disk : ℚ) :
    ((health_check cpu memory disk).status = "WARNING" ↔ (80 ≤ cpu ∨ 80 ≤ memory)) ∧
    ((health_check cpu memory disk).status = "OK" ↔ (cpu < 80 ∧ memory < 80)) := by
  have hOK : ("OK" : String) ≠ "WARNING" := by decide
  unfold health_check
  by_cases h : cpu < 80 ∧ memory < 80
  · rw [if_pos h]
    constructor
    · simp only [show ({ status := "OK", cpu := cpu, memory := memory, disk := disk }
        : HealthResponse).status = "OK" from rfl]
      constructor
      · intro hw; exact absurd hw hOK
      · intro hor
        rcases hor with h80 | h80
        · exact absurd h.1 (not_lt.mpr h80)
        · exact absurd h.2 (not_lt.mpr h80)
    · simp [h]
  · rw [if_neg h]
    rw [not_and_or, not_lt, not_lt] at h
    constructor
    · simp [h]
    · constructor
      · intro hok; exact absurd hok.symm hOK
      · intro hboth
        exfalso
        rcases h with h80 | h80
        · exact absurd hboth.1 (not_lt.mpr h80)
        · exact absurd hboth.2 (not_lt.mpr h80)

/-- C1 counterexample: with `confirm = "YES"` — not exactly the string
"yes" — the handler still deletes the aged file `old.log` (the filesystem
changes) and does not return the no-op message. -/
theorem c1_uppercase_confirm_still_deletes :
    "YES" ≠ "yes" ∧
    fsW.isfile "logs" "old.log" = true ∧
    (delete_logs fsW "logs" 1 "YES" 1000000).1.isfile "logs" "old.log" = false ∧
    (delete_logs fsW "logs" 1 "YES" 1000000).2 ≠
      DeleteResponse.noop "Deletion not performed. Use ?confirm=yes to proceed." "logs" 1 := by
  exact ⟨by decide, by decide, by decide, by decide⟩

/-- C1 (amended): no file is deleted — the filesystem is returned
unchanged — unless `confirm.lower()` equals "yes" (the check is
case-insensitive); when it differs the handler returns the no-op message
object. -/
theorem c1_delete_noop_unless_confirm_yes (fs : FS) (folder : String) (days : Int)
    (confirm : String) (now : ℤ) (h : pyLower confirm ≠ "yes") :
    delete_logs fs folder days confirm now =
      (fs, DeleteResponse.noop "Deletion not performed. Use ?confirm=yes to proceed."
        folder days) := by
  unfold delete_logs
  rw [if_pos h]

/-- C1 witness: the amended statement at `confirm = "no"` on the concrete
filesystem. -/
theorem c1_delete_noop_unless_confirm_yes_witness :
    pyLower "no" ≠ "yes" ∧
    delete_logs fsW "logs" 30 "no" 1000000 =
      (fsW, DeleteResponse.noop "Deletion not performed. Use ?confirm=yes to proceed."
        "logs" 30) :=
  ⟨by decide, c1_delete_noop_unless_confirm_yes fsW "logs" 30 "no" 1000000 (by decide)⟩

/-- C6: when the given folder does not exist (preview; confirmed delete)
or the given file_path does not exist (summarize), the handler returns an
object with a descriptive `error` field — the handlers are total, nothing
is raised. -/
theorem c6_missing_inputs_yield_error (fs : FS) (folder fp : String) (days : Int)
    (now : ℤ) (h1 : fs.folderExists folder = false) (h2 : fs.fileExists fp = false) :
    (preview_logs fs folder days now).2 = Except.error ("Folder not found: " ++ folder) ∧
    (delete_logs fs folder days "yes" now).2 =
      DeleteResponse.error ("Folder not found: " ++ folder) ∧
    summarize_log fs fp = Except.error ("File not found: " ++ fp) := by
  refine ⟨?_, ?_, ?_⟩
  · unfold preview_logs; rw [if_pos h1]
  · unfold delete_logs
    rw [if_neg (by decide), if_pos h1]
  · unfold summarize_log; rw [if_pos h2]

/-- C6 witness: a folder and a file path that do not exist in the concrete
filesystem. -/
theorem c6_missing_inputs_yield_error_witness :
    fsW.folderExists "missing" = false ∧ fsW.fileExists "/missing.log" = false ∧
    ((preview_logs fsW "missing" 30 1000000).2 =
        Except.error ("Folder not found: " ++ "missing") ∧
      (delete_logs fsW "missing" 30 "yes" 1000000).2 =
        DeleteResponse.error ("Folder not found: " ++ "missing") ∧
      summarize_log fsW "/missing.log" = Except.error ("File not found: " ++ "/missing.log")) :=
  ⟨by decide, by decide,
    c6_missing_inputs_yield_error fsW "missing" "/missing.log" 30 1000000
      (by decide) (by decide)⟩

/-- C8: for an existing folder, preview returns exactly the regular files
whose age exceeds `days * 86400` seconds, each with its size in bytes,
`total_space_to_free_mb` equal to the rounded sum of those sizes in MB,
and the pre-built confirmed-deletion URL. -/
theorem c8_preview_logs_spec (fs : FS) (folder : String) (days : Int) (now : ℤ)
    (hex : fs.folderExists folder = true) :
    ∃ pr, (preview_logs fs folder days now).2 = Except.ok pr ∧
      pr.files_to_delete = (selectedLogFiles fs folder days now).map
        (fun f => (f, fs.getsize folder f)) ∧
      (∀ f, f ∈ selectedLogFiles fs folder days now ↔
        (f ∈ fs.listdir folder ∧ fs.isfile folder f = true ∧
          days * 86400 < now - fs.getmtime folder f)) ∧
      pr.total_space_to_free_mb = round2
        ((((selectedLogFiles fs folder days now).map
            (fun f => fs.getsize folder f)).sum : ℚ) / (1024 * 1024)) ∧
      pr.delete_url = "/logs/delete-confirmed?folder=" ++ folder ++ "&days="
        ++ toString days ++ "&confirm=yes" := by
  refine ⟨_, preview_logs_run fs folder days now hex, rfl, ?_, rfl, rfl⟩
  intro f
  simp [selectedLogFiles, List.mem_filter, agedFile]

/-- C8 witness: the preview specification at the concrete filesystem. -/
theorem c8_preview_logs_spec_witness :
    ∃ pr, (preview_logs fsW "logs" 1 1000000).2 = Except.ok pr ∧
      pr.files_to_delete = (selectedLogFiles fsW "logs" 1 1000000).map
        (fun f => (f, fsW.getsize "logs" f)) ∧
      (∀ f, f ∈ selectedLogFiles fsW "logs" 1 1000000 ↔
        (f ∈ fsW.listdir "logs" ∧ fsW.isfile "logs" f = true ∧
          1 * 86400 < 1000000 - fsW.getmtime "logs" f)) ∧
      pr.total_space_to_free_mb = round2
        ((((selectedLogFiles fsW "logs" 1 1000000).map
            (fun f => fsW.getsize "logs" f)).sum : ℚ) / (1024 * 1024)) ∧
      pr.delete_url = "/logs/delete-confirmed?folder=" ++ "logs" ++ "&days="
        ++ toString (1 : Int) ++ "&confirm=yes" :=
  c8_preview_logs_spec fsW "logs" 1 1000000 (by decide)

/-- C2: over the same filesystem and current time, preview and confirmed
delete select the same files: the previewed names equal the names reported
in `deleted_files`, and a name is selected iff it is a listed regular
file with `now - mtime > days * 86400`. -/
theorem c2_preview_delete_same_selection (fs : FS) (folder : String) (days : Int)
    (now : ℤ) (hex : fs.folderExists folder = true)
    (hnd : (fs.listdir folder).Nodup) :
    ∃ pr dr,
      (preview_logs fs folder days now).2 = Except.ok pr ∧
      (delete_logs fs folder days "yes" now).2 = DeleteResponse.ok dr ∧
      pr.files_to_delete.map Prod.fst = dr.deleted_files.map DeletedEntry.fileName ∧
      ∀ f, f ∈ pr.files_to_delete.map Prod.fst ↔
        (f ∈ fs.listdir folder ∧ fs.isfile folder f = true ∧
          days * 86400 < now - fs.getmtime folder f) := by
  refine ⟨_, _, preview_logs_run fs folder days now hex,
    delete_logs_run fs folder days "yes" now (by decide) hex hnd, ?_, ?_⟩
  · simp [List.map_map, Function.comp_def, fileName_removeOutcome]
  · intro f
    simp [List.map_map, Function.comp_def, selectedLogFiles, List.mem_filter, agedFile]

/-- C2 witness: the selection agreement at the concrete filesystem. -/
theorem c2_preview_delete_same_selection_witness :
    ∃ pr dr,
      (preview_logs fsW "logs" 1 1000000).2 = Except.ok pr ∧
      (delete_logs fsW "logs" 1 "yes" 1000000).2 = DeleteResponse.ok dr ∧
      pr.files_to_delete.map Prod.fst = dr.deleted_files.map DeletedEntry.fileName ∧
      ∀ f, f ∈ pr.files_to_delete.map Prod.fst ↔
        (f ∈ fsW.listdir "logs" ∧ fsW.isfile "logs" f = true ∧
          1 * 86400 < 1000000 - fsW.getmtime "logs" f) :=
  c2_preview_delete_same_selection fsW "logs" 1 1000000 (by decide) (by decide)

/-- C7: during a confirmed delete, every selected file yields exactly one
`deleted_files` entry; a file whose removal raises is recorded as the
`{file, error}` record and the remaining files are still processed, so a
per-file failure never aborts the operation. -/
theorem c7_per_file_failure_recorded_and_continues (fs : FS) (folder : String)
    (days : Int) (now : ℤ) (hex : fs.folderExists folder = true)
    (hnd : (fs.listdir folder).Nodup) :
    ∃ dr, (delete_logs fs folder days "yes" now).2 = DeleteResponse.ok dr ∧
      dr.deleted_files = (selectedLogFiles fs folder days now).map
        (removeOutcome fs folder) ∧
      dr.deleted_files.length = (selectedLogFiles fs folder days now).length ∧
      ∀ f msg, f ∈ selectedLogFiles fs folder days now →
        fs.remove folder f = Except.error msg →
        DeletedEntry.failed f msg ∈ dr.deleted_files := by
  refine ⟨_, delete_logs_run fs folder days "yes" now (by decide) hex hnd, rfl,
    by simp, ?_⟩
  intro f msg hf hrem
  have hout : removeOutcome fs folder f = DeletedEntry.failed f msg := by
    unfold removeOutcome; rw [hrem]
  exact hout ▸ List.mem_map_of_mem (removeOutcome fs folder) hf

/-- C7 witness: the concrete filesystem, where removing `locked.log`
raises "Permission denied". -/
theorem c7_per_file_failure_recorded_and_continues_witness :
    ∃ dr, (delete_logs fsW "logs" 1 "yes" 1000000).2 = DeleteResponse.ok dr ∧
      dr.deleted_files = (selectedLogFiles fsW "logs" 1 1000000).map
        (removeOutcome fsW "logs") ∧
      dr.deleted_files.length = (selectedLogFiles fsW "logs" 1 1000000).length ∧
      ∀ f msg, f ∈ selectedLogFiles fsW "logs" 1 1000000 →
        fsW.remove "logs" f = Except.error msg →
        DeletedEntry.failed f msg ∈ dr.deleted_files :=
  c7_per_file_failure_recorded_and_continues fsW "logs" 1 1000000 (by decide) (by decide)

/-- C10: `space_freed_mb` accounts only for files whose removal succeeded:
it is the rounded MB sum of the sizes of the selected files that were
successfully removed, and a file whose removal raised is excluded from
that sum's index list. -/
theorem c10_space_freed_counts_successful_only (fs : FS) (folder : String)
    (days : Int) (now : ℤ) (hex : fs.folderExists folder = true)
    (hnd : (fs.listdir folder).Nodup) :
    ∃ dr, (delete_logs fs folder days "yes" now).2 = DeleteResponse.ok dr ∧
      dr.space_freed_mb = round2
        (((((selectedLogFiles fs folder days now).filter
              (removeSucceeds fs folder)).map
            (fun f => fs.getsize folder f)).sum : ℚ) / (1024 * 1024)) ∧
      ∀ f, f ∈ selectedLogFiles fs folder days now →
        removeSucceeds fs folder f = false →
        f ∉ (selectedLogFiles fs folder days now).filter (removeSucceeds fs folder) := by
  refine ⟨_, delete_logs_run fs folder days "yes" now (by decide) hex hnd, ?_, ?_⟩
  · show round2 _ = round2 _
    unfold selectedLogFiles
    rw [filter_and_filter]
  · intro f _ hfail
    simp [List.mem_filter, hfail]

/-- C10 witness: the concrete filesystem, where only `old.log` is
successfully removed while `locked.log` fails. -/
theorem c10_space_freed_counts_successful_only_witness :
    ∃ dr, (delete_logs fsW "logs" 1 "yes" 1000000).2 = DeleteResponse.ok dr ∧
      dr.space_freed_mb = round2
        (((((selectedLogFiles fsW "logs" 1 1000000).filter
              (removeSucceeds fsW "logs")).map
            (fun f => fsW.getsize "logs" f)).sum : ℚ) / (1024 * 1024)) ∧
      ∀ f, f ∈ selectedLogFiles fsW "logs" 1 1000000 →
        removeSucceeds fsW "logs" f = false →
        f ∉ (selectedLogFiles fsW "logs" 1 1000000).filter (removeSucceeds fsW "logs") :=
  c10_space_freed_counts_successful_only fsW "logs" 1 1000000 (by decide) (by decide)

/-- C3: summarize counts each line in at most one of the three buckets,
applying the case-insensitive tests in priority order error, warn, info;
`total_lines` equals the number of lines, so the bucket sum is bounded by
it. -/
theorem c3_summarize_classification (fs : FS) (p : String) (lines : List String)
    (h : fs.textFiles p = some lines) :
    summarize_log fs p = Except.ok
      { errors := lines.countP lineIsError
        warnings := lines.countP lineIsWarning
        info := lines.countP lineIsInfo
        total_lines := lines.length } ∧
    (∀ line, (lineIsError line && lineIsWarning line) = false ∧
      (lineIsError line && lineIsInfo line) = false ∧
      (lineIsWarning line && lineIsInfo line) = false) ∧
    lines.countP lineIsError + lines.countP lineIsWarning + lines.countP lineIsInfo
      ≤ lines.length := by
  refine ⟨?_, ?_, countP_buckets_le_length lines⟩
  · unfold summarize_log
    rw [if_neg (by simp [FS.fileExists, h]), h]
    simp [summarizeLine_foldl]
  · intro line
    unfold lineIsError lineIsWarning lineIsInfo
    by_cases h1 : searchIgnoreCase "error" line <;>
      by_cases h2 : searchIgnoreCase "warn" line <;> simp [h1, h2]

/-- C3 witness: the sample log file of the concrete filesystem. -/
theorem c3_summarize_classification_witness :
    fsW.textFiles "/var/log/app.log" = some wLines ∧
    (summarize_log fsW "/var/log/app.log" = Except.ok
      { errors := wLines.countP lineIsError
        warnings := wLines.countP lineIsWarning
        info := wLines.countP lineIsInfo
        total_lines := wLines.length } ∧
    (∀ line, (lineIsError line && lineIsWarning line) = false ∧
      (lineIsError line && lineIsInfo line) = false ∧
      (lineIsWarning line && lineIsInfo line) = false) ∧
    wLines.countP lineIsError + wLines.countP lineIsWarning + wLines.countP lineIsInfo
      ≤ wLines.length) :=
  ⟨by decide, c3_summarize_classification fsW "/var/log/app.log" wLines (by decide)⟩
